import Mathlib

/-! Verification development for the BitbyBit live-alert WebSocket clients,
shallowly embedding `src/web/static/dashboard.js` and
`src/web/static/live_monitoring.js`.

The DOM is modelled as a `Doc` state: the two named display surfaces the
scripts look up (`live-data` and `alerts-area`, each `Option String` — `none`
means the element is absent from the page, `some s` means it is present with
text content `s`), the document body as a list of dynamically created elements
(the `ws-status` banner and toast divs), and the list of `setTimeout` removal
timers the scripts schedule.  Decoded JSON values (the output of the
`JSON.parse` builtin) are modelled by the `JsonVal` family, and the
`JSON.stringify(x, null, 2)` builtin by `jsonStringify2`.  Each event handler
becomes a function on `Doc`; `onmessage` returns an `HRes` whose `thrown`
flag records an unhandled exception (invalid JSON at the decode step, or a
property access on a decoded `null`). -/

namespace Coastal

mutual

/-- Decoded JSON values, the possible results of the `JSON.parse` builtin.
Objects are field lists with distinct keys (property lookup takes the first
match). -/
inductive JsonVal : Type where
  | str : String → JsonVal
  | num : Int → JsonVal
  | bool : Bool → JsonVal
  | null : JsonVal
  | arr : JsonList → JsonVal
  | obj : JsonFields → JsonVal

inductive JsonList : Type where
  | nil : JsonList
  | cons : JsonVal → JsonList → JsonList

inductive JsonFields : Type where
  | nil : JsonFields
  | cons : String → JsonVal → JsonFields → JsonFields

end

/-- Lowercase hex digit for `\uXXXX` escapes. -/
def hexDigit (n : Nat) : Char :=
  if n < 10 then Char.ofNat (48 + n) else Char.ofNat (87 + n)

/-- Four-digit hex rendering used by JSON string escapes. -/
def hex4 (n : Nat) : String :=
  String.mk [hexDigit (n / 4096 % 16), hexDigit (n / 256 % 16),
             hexDigit (n / 16 % 16), hexDigit (n % 16)]

/-- JSON escaping of a single character, as `JSON.stringify` performs it. -/
def escapeChar (c : Char) : String :=
  if c = '"' then "\\\""
  else if c = '\\' then "\\\\"
  else if c = '\n' then "\\n"
  else if c = '\r' then "\\r"
  else if c = '\t' then "\\t"
  else if c.toNat = 8 then "\\b"
  else if c.toNat = 12 then "\\f"
  else if c.toNat < 32 then "\\u" ++ hex4 c.toNat
  else String.singleton c

/-- A JSON string literal: quotes around the escaped characters. -/
def quoteStr (s : String) : String :=
  "\"" ++ String.join (s.toList.map escapeChar) ++ "\""

/-- Indentation of `2 * lvl` spaces, the `JSON.stringify(x, null, 2)` gap. -/
def indentStr (lvl : Nat) : String :=
  String.mk (List.replicate (2 * lvl) ' ')

mutual

/-- Pretty printer embedding the `JSON.stringify(x, null, 2)` builtin:
nested values are indented two further spaces per level, empty arrays and
objects print on one line. -/
def stringifyVal : JsonVal → Nat → String
  | .str s, _ => quoteStr s
  | .num n, _ => toString n
  | .bool b, _ => if b then "true" else "false"
  | .null, _ => "null"
  | .arr .nil, _ => "[]"
  | .arr (.cons v tl), lvl =>
      "[\n" ++ stringifyItems (.cons v tl) (lvl + 1) ++ "\n" ++ indentStr lvl ++ "]"
  | .obj .nil, _ => "\x7b\x7d"
  | .obj (.cons k v tl), lvl =>
      "\x7b\n" ++ stringifyFields (.cons k v tl) (lvl + 1) ++ "\n" ++ indentStr lvl ++ "\x7d"

def stringifyItems : JsonList → Nat → String
  | .nil, _ => ""
  | .cons v .nil, lvl => indentStr lvl ++ stringifyVal v lvl
  | .cons v tl, lvl =>
      indentStr lvl ++ stringifyVal v lvl ++ ",\n" ++ stringifyItems tl lvl

def stringifyFields : JsonFields → Nat → String
  | .nil, _ => ""
  | .cons k v .nil, lvl => indentStr lvl ++ quoteStr k ++ ": " ++ stringifyVal v lvl
  | .cons k v tl, lvl =>
      indentStr lvl ++ quoteStr k ++ ": " ++ stringifyVal v lvl ++ ",\n" ++ stringifyFields tl lvl

end

/-- The call `JSON.stringify(v, null, 2)`, as both scripts make it. -/
def jsonStringify2 (v : JsonVal) : String := stringifyVal v 0

/-- First field with the given key, i.e. JavaScript property lookup on a
decoded object. -/
def findField : JsonFields → String → Option JsonVal
  | .nil, _ => none
  | .cons k v tl, key => if k == key then some v else findField tl key

/-- JavaScript property access `v[key]` on a decoded value: `none` stands for
`undefined` (every non-object has no data properties of these names). -/
def getProp (v : JsonVal) (key : String) : Option JsonVal :=
  match v with
  | .obj fs => findField fs key
  | _ => none

/-- JavaScript truthiness of a decoded JSON value. -/
def truthy : JsonVal → Bool
  | .str s => !(s == "")
  | .num n => !(n == 0)
  | .bool b => b
  | .null => false
  | .arr _ => true
  | .obj _ => true

/-- Truthiness of a possibly-`undefined` property value (`undefined` is
falsy). -/
def truthyOpt : Option JsonVal → Bool
  | some v => truthy v
  | none => false

/-- JavaScript strict equality `v === s` between a possibly-`undefined`
property value and a string literal. -/
def jsStrictEqStr (v : Option JsonVal) (s : String) : Bool :=
  match v with
  | some (.str t) => t == s
  | _ => false

/-- Whether the decoded value is JavaScript `null` (property access on it
throws a TypeError). -/
def isNull : JsonVal → Bool
  | .null => true
  | _ => false

mutual

/-- String coercion of a decoded value inside a template literal, as
JavaScript `String(v)` produces it. -/
def jsToString : JsonVal → String
  | .str s => s
  | .num n => toString n
  | .bool b => if b then "true" else "false"
  | .null => "null"
  | .arr xs => jsArrJoin xs
  | .obj _ => "[object Object]"

def jsArrJoin : JsonList → String
  | .nil => ""
  | .cons .null .nil => ""
  | .cons v .nil => jsToString v
  | .cons .null tl => "," ++ jsArrJoin tl
  | .cons v tl => jsToString v ++ "," ++ jsArrJoin tl

end

/-- Template-literal interpolation of a property value; a missing property
renders as the string `undefined`. -/
def jsDisplay : Option JsonVal → String
  | some v => jsToString v
  | none => "undefined"

/-- An element dynamically created by the scripts and appended to
`document.body`: the `ws-status` banner div or a toast div, each carrying its
text content and background color. -/
inductive Elem : Type where
  | banner : String → String → Elem
  | toast : String → String → Elem
  deriving DecidableEq

/-- A removal callback scheduled with `setTimeout`, with its delay in
milliseconds. -/
inductive Timer : Type where
  | bannerRemove : Nat → Timer
  | toastRemove : Nat → Timer
  deriving DecidableEq

/-- The DOM state the scripts interact with. -/
structure Doc : Type where
  liveData : Option String
  alertsArea : Option String
  body : List Elem
  timers : List Timer
  deriving DecidableEq

/-- Result of one `onmessage` invocation: the document afterwards and whether
the handler exited with an unhandled exception. -/
structure HRes : Type where
  doc : Doc
  thrown : Bool
  deriving DecidableEq

/-- Embedding of `if (liveArea) liveArea.textContent = s` on the `live-data` element. -/
def writeLive (doc : Doc) (s : String) : Doc :=
  if doc.liveData.isSome then { doc with liveData := some s } else doc

/-- Embedding of `if (alertArea) alertArea.textContent = s` on the `alerts-area` element. -/
def writeAlerts (doc : Doc) (s : String) : Doc :=
  if doc.alertsArea.isSome then { doc with alertsArea := some s } else doc

/-- The `colors` table inside `showToast`. -/
def toastColors (level : String) : Option String :=
  if level == "info" then some "#2563eb"
  else if level == "success" then some "#22c55e"
  else if level == "danger" then some "#dc2626"
  else if level == "warning" then some "#fbbf24"
  else none

/-- The function `showToast(message, level)` (identical in both files): creates a fresh
toast div with background `colors[level] || colors.info`, appends it to the
body, and schedules its removal after 5500 ms.  No lookup of existing toasts
happens, so toasts are never deduplicated or merged. -/
def showToast (message : String) (level : String) (doc : Doc) : Doc :=
  { doc with
      body := doc.body ++ [Elem.toast message ((toastColors level).getD "#2563eb")],
      timers := doc.timers ++ [Timer.toastRemove 5500] }

/-- Body transformation of `setStatus`: the first `ws-status` banner element
(the `getElementById` result) gets its text replaced and keeps its styling;
when none exists a fresh banner is created with background `#c92a2a` when
`isError` and `#2776ea` otherwise, and appended to the body. -/
def setStatusBody : List Elem → String → Bool → List Elem
  | [], msg, isError =>
      [Elem.banner msg (if isError then "#c92a2a" else "#2776ea")]
  | Elem.banner _ bg :: tl, msg, _ => Elem.banner msg bg :: tl
  | e :: tl, msg, isError => e :: setStatusBody tl msg isError

/-- The function `setStatus(msg, isError)` (identical in both files): create-or-reuse the
singleton `ws-status` banner, write `msg` into it, and schedule its removal
after 3500 ms. -/
def setStatus (msg : String) (isError : Bool) (doc : Doc) : Doc :=
  { doc with
      body := setStatusBody doc.body msg isError,
      timers := doc.timers ++ [Timer.bannerRemove 3500] }

/-- Handler `ws.onmessage` of `dashboard.js`, applied to the already-decoded message.
The whole message is mirrored into `live-data` (when present); then, only
when `alerts-area` is present, the field `type` of the message is compared with
`instant_threat` (a property access that throws on a decoded `null`), and for
a truthy `data` payload the payload is written into `alerts-area` and a toast
is emitted for `threat_level` CRITICAL (danger) or HIGH (warning), the
CRITICAL comparison first. -/
def dashboardOnMessage (doc : Doc) (data : JsonVal) : HRes :=
  let doc1 := writeLive doc (jsonStringify2 data)
  if doc1.alertsArea.isSome then
    if isNull data then ⟨doc1, true⟩
    else if jsStrictEqStr (getProp data "type") "instant_threat"
            && truthyOpt (getProp data "data") then
      let d := (getProp data "data").getD JsonVal.null
      let doc2 := writeAlerts doc1 (jsonStringify2 d)
      if jsStrictEqStr (getProp d "threat_level") "CRITICAL" then
        ⟨showToast ("CRITICAL THREAT: " ++ jsDisplay (getProp d "location")) "danger" doc2, false⟩
      else if jsStrictEqStr (getProp d "threat_level") "HIGH" then
        ⟨showToast ("HIGH THREAT: " ++ jsDisplay (getProp d "location")) "warning" doc2, false⟩
      else ⟨doc2, false⟩
    else ⟨doc1, false⟩
  else ⟨doc1, false⟩

/-- Handler `ws.onmessage` of `live_monitoring.js`, applied to the already-decoded
message.  The whole message is mirrored into `alerts-area` (when present);
then the escalation condition of the source (strict equality of `alert.type`
with `instant_threat`, then truthiness of `alert.data`
and of `alert.data.threat_level`) is evaluated independently of any display
surface (on a decoded `null` the `alert.type` access throws), and a toast is
emitted for `threat_level` CRITICAL (danger) or HIGH (warning), the CRITICAL
comparison first. -/
def liveMonitoringOnMessage (doc : Doc) (alert : JsonVal) : HRes :=
  let doc1 := writeAlerts doc (jsonStringify2 alert)
  if isNull alert then ⟨doc1, true⟩
  else if jsStrictEqStr (getProp alert "type") "instant_threat"
          && truthyOpt (getProp alert "data")
          && truthyOpt (getProp ((getProp alert "data").getD JsonVal.null) "threat_level") then
    let d := (getProp alert "data").getD JsonVal.null
    if jsStrictEqStr (getProp d "threat_level") "CRITICAL" then
      ⟨showToast ("CRITICAL THREAT: " ++ jsDisplay (getProp d "location")) "danger" doc1, false⟩
    else if jsStrictEqStr (getProp d "threat_level") "HIGH" then
      ⟨showToast ("HIGH THREAT: " ++ jsDisplay (getProp d "location")) "warning" doc1, false⟩
    else ⟨doc1, false⟩
  else ⟨doc1, false⟩

/-- Handler `ws.onmessage` of `dashboard.js` at the frame level: the raw frame is fed
to `JSON.parse` first (`payload` is the parse result, `none` when the frame
is not valid JSON, in which case the parse exception propagates unhandled
before any other statement runs). -/
def dashboardOnFrame (doc : Doc) (payload : Option JsonVal) : HRes :=
  match payload with
  | some v => dashboardOnMessage doc v
  | none => ⟨doc, true⟩

/-- Handler `ws.onmessage` of `live_monitoring.js` at the frame level (the
`getElementById` preceding the parse has no effect on the document). -/
def liveMonitoringOnFrame (doc : Doc) (payload : Option JsonVal) : HRes :=
  match payload with
  | some v => liveMonitoringOnMessage doc v
  | none => ⟨doc, true⟩

/-- Handler `ws.onopen` of `dashboard.js`. -/
def dashboardOnOpen (doc : Doc) : Doc :=
  setStatus "Connected to live updates" false doc

/-- Handler `ws.onopen` of `live_monitoring.js`. -/
def liveMonitoringOnOpen (doc : Doc) : Doc :=
  setStatus "Connected to live alerts" false doc

/-- Handler `ws.onerror` (identical in both files): only a status update, no surface
is touched. -/
def wsOnError (doc : Doc) : Doc :=
  setStatus "WebSocket error occurred" true doc

/-- Handler `ws.onclose` of `dashboard.js`: status update, then both display surfaces
(when present) are overwritten with the literal disconnect text. -/
def dashboardOnClose (doc : Doc) : Doc :=
  writeAlerts (writeLive (setStatus "WebSocket disconnected" true doc)
      "WebSocket disconnected")
    "WebSocket disconnected"

/-- Handler `ws.onclose` of `live_monitoring.js`: status update, then the
`alerts-area` surface (when present) is overwritten with the literal
disconnect text. -/
def liveMonitoringOnClose (doc : Doc) : Doc :=
  writeAlerts (setStatus "WebSocket disconnected" true doc) "WebSocket disconnected"

/-- The connection URL both files build at startup:
a template literal around `window.location.host` with the hardcoded `ws`
scheme and the `/ws` path. -/
def wsUrl (host : String) : String :=
  "ws://" ++ host ++ "/ws"

/-- The connection URL as the spec words it (scheme mirrors the hosting
transport security of the page: `wss` when the page is secure, `ws` otherwise);
stated for comparison with `wsUrl`. -/
def specWsUrl (secure : Bool) (host : String) : String :=
  (if secure then "wss://" else "ws://") ++ host ++ "/ws"

/-- The toast elements of a body, as (text, background) pairs, in order. -/
def toastList : List Elem → List (String × String)
  | [] => []
  | Elem.toast t bg :: tl => (t, bg) :: toastList tl
  | _ :: tl => toastList tl

/-- Number of `ws-status` banner elements in a body. -/
def countBanners : List Elem → Nat
  | [] => 0
  | Elem.banner _ _ :: tl => countBanners tl + 1
  | _ :: tl => countBanners tl

/-- The first banner element of a body (the `ws-status` lookup
result), as a (text, background) pair. -/
def firstBanner : List Elem → Option (String × String)
  | [] => none
  | Elem.banner t bg :: _ => some (t, bg)
  | _ :: tl => firstBanner tl

/-- The background the `ws-status` banner shows after a `setStatus` call on
the given prior body: a reused banner keeps its old background, a freshly
created one gets the error or info color. -/
def bannerBgAfter (body : List Elem) (isError : Bool) : String :=
  match firstBanner body with
  | some p => p.2
  | none => if isError then "#c92a2a" else "#2776ea"

/-- The delays of the scheduled toast-removal timers, in order. -/
def toastTimers : List Timer → List Nat
  | [] => []
  | Timer.toastRemove n :: tl => n :: toastTimers tl
  | _ :: tl => toastTimers tl

/-- Processing a sequence of decoded messages through the `dashboard.js`
message handler (each browser event dispatch is independent, so an exception
in one handler run does not stop later messages). -/
def processDashboardSeq (doc : Doc) (ms : List JsonVal) : Doc :=
  ms.foldl (fun d m => (dashboardOnMessage d m).doc) doc

/-- Processing a sequence of decoded messages through the
`live_monitoring.js` message handler. -/
def processLiveMonitoringSeq (doc : Doc) (ms : List JsonVal) : Doc :=
  ms.foldl (fun d m => (liveMonitoringOnMessage d m).doc) doc

/-- The escalation predicate of the claims: `type` is exactly
`instant_threat`, `data` is present, and `data.threat_level` is exactly
`CRITICAL` or `HIGH`. -/
def qualifyingB (m : JsonVal) : Bool :=
  jsStrictEqStr (getProp m "type") "instant_threat"
    && (getProp m "data").isSome
    && (jsStrictEqStr (getProp ((getProp m "data").getD JsonVal.null) "threat_level") "CRITICAL"
        || jsStrictEqStr (getProp ((getProp m "data").getD JsonVal.null) "threat_level") "HIGH")

/-- The toast a qualifying message produces, as (text, background) pairs:
the CRITICAL comparison is made first, danger maps to `#dc2626` and warning
to `#fbbf24` in the severity color table. -/
def toastFor (m : JsonVal) : List (String × String) :=
  let d := (getProp m "data").getD JsonVal.null
  if jsStrictEqStr (getProp d "threat_level") "CRITICAL" then
    [("CRITICAL THREAT: " ++ jsDisplay (getProp d "location"), "#dc2626")]
  else if jsStrictEqStr (getProp d "threat_level") "HIGH" then
    [("HIGH THREAT: " ++ jsDisplay (getProp d "location"), "#fbbf24")]
  else []

/-- The toast of `toastFor` as body elements. -/
def toastElemsFor (m : JsonVal) : List Elem :=
  (toastFor m).map fun p => Elem.toast p.1 p.2

/-- Sample threat payload: location Chennai, threat_level CRITICAL. -/
def dCritical : JsonVal :=
  JsonVal.obj (.cons "location" (.str "Chennai")
    (.cons "threat_level" (.str "CRITICAL") .nil))

/-- Sample qualifying message with a CRITICAL payload. -/
def msgCritical : JsonVal :=
  JsonVal.obj (.cons "type" (.str "instant_threat") (.cons "data" dCritical .nil))

/-- Sample threat payload: location Goa, threat_level HIGH. -/
def dHigh : JsonVal :=
  JsonVal.obj (.cons "location" (.str "Goa")
    (.cons "threat_level" (.str "HIGH") .nil))

/-- Sample qualifying message with a HIGH payload. -/
def msgHigh : JsonVal :=
  JsonVal.obj (.cons "type" (.str "instant_threat") (.cons "data" dHigh .nil))

/-- Sample non-escalating payload: threat_level LOW. -/
def dLow : JsonVal :=
  JsonVal.obj (.cons "location" (.str "Mumbai")
    (.cons "threat_level" (.str "LOW") .nil))

/-- Sample instant_threat message whose threat_level LOW does not escalate. -/
def msgLow : JsonVal :=
  JsonVal.obj (.cons "type" (.str "instant_threat") (.cons "data" dLow .nil))

/-- A page with both display surfaces present and an empty body. -/
def docBoth : Doc := ⟨some "", some "", [], []⟩

/-- A page with the `live-data` surface but no `alerts-area` element. -/
def docNoAlerts : Doc := ⟨some "", none, [], []⟩

/-- A page state right after `onopen`: both surfaces hold old content and the
`ws-status` banner still shows the info-styled connect text. -/
def docOpenBanner : Doc :=
  ⟨some "old", some "old", [Elem.banner "Connected to live updates" "#2776ea"], []⟩

/-- A live-monitoring page state right after `onopen`: the `alerts-area`
surface holds old content and the `ws-status` banner still shows the
info-styled connect text. -/
def docOpenBannerLM : Doc :=
  ⟨none, some "old", [Elem.banner "Connected to live alerts" "#2776ea"], []⟩

/-- Sample non-threat message (a generic update). -/
def msgUpdate : JsonVal :=
  JsonVal.obj (.cons "type" (.str "sensor_update") .nil)

@[simp] theorem writeLive_liveData (doc : Doc) (s : String) :
    (writeLive doc s).liveData = doc.liveData.map (fun _ => s) := by
  unfold writeLive; cases hd : doc.liveData <;> simp [hd]

@[simp] theorem writeLive_alertsArea (doc : Doc) (s : String) :
    (writeLive doc s).alertsArea = doc.alertsArea := by
  unfold writeLive; split <;> rfl

@[simp] theorem writeLive_body (doc : Doc) (s : String) :
    (writeLive doc s).body = doc.body := by
  unfold writeLive; split <;> rfl

@[simp] theorem writeLive_timers (doc : Doc) (s : String) :
    (writeLive doc s).timers = doc.timers := by
  unfold writeLive; split <;> rfl

@[simp] theorem writeAlerts_alertsArea (doc : Doc) (s : String) :
    (writeAlerts doc s).alertsArea = doc.alertsArea.map (fun _ => s) := by
  unfold writeAlerts; cases hd : doc.alertsArea <;> simp [hd]

@[simp] theorem writeAlerts_liveData (doc : Doc) (s : String) :
    (writeAlerts doc s).liveData = doc.liveData := by
  unfold writeAlerts; split <;> rfl

@[simp] theorem writeAlerts_body (doc : Doc) (s : String) :
    (writeAlerts doc s).body = doc.body := by
  unfold writeAlerts; split <;> rfl

@[simp] theorem writeAlerts_timers (doc : Doc) (s : String) :
    (writeAlerts doc s).timers = doc.timers := by
  unfold writeAlerts; split <;> rfl

@[simp] theorem showToast_liveData (msg lvl : String) (doc : Doc) :
    (showToast msg lvl doc).liveData = doc.liveData := rfl

@[simp] theorem showToast_alertsArea (msg lvl : String) (doc : Doc) :
    (showToast msg lvl doc).alertsArea = doc.alertsArea := rfl

@[simp] theorem showToast_body (msg lvl : String) (doc : Doc) :
    (showToast msg lvl doc).body
      = doc.body ++ [Elem.toast msg ((toastColors lvl).getD "#2563eb")] := rfl

@[simp] theorem showToast_timers (msg lvl : String) (doc : Doc) :
    (showToast msg lvl doc).timers = doc.timers ++ [Timer.toastRemove 5500] := rfl

@[simp] theorem setStatus_liveData (msg : String) (e : Bool) (doc : Doc) :
    (setStatus msg e doc).liveData = doc.liveData := rfl

@[simp] theorem setStatus_alertsArea (msg : String) (e : Bool) (doc : Doc) :
    (setStatus msg e doc).alertsArea = doc.alertsArea := rfl

@[simp] theorem setStatus_body (msg : String) (e : Bool) (doc : Doc) :
    (setStatus msg e doc).body = setStatusBody doc.body msg e := rfl

@[simp] theorem setStatus_timers (msg : String) (e : Bool) (doc : Doc) :
    (setStatus msg e doc).timers = doc.timers ++ [Timer.bannerRemove 3500] := rfl

@[simp] theorem toastList_append (l1 l2 : List Elem) :
    toastList (l1 ++ l2) = toastList l1 ++ toastList l2 := by
  induction l1 with
  | nil => rfl
  | cons e tl ih => cases e <;> simp [toastList, ih]

@[simp] theorem toastList_setStatusBody (body : List Elem) (msg : String) (e : Bool) :
    toastList (setStatusBody body msg e) = toastList body := by
  induction body with
  | nil => simp [setStatusBody, toastList]
  | cons el tl ih => cases el <;> simp [setStatusBody, toastList, ih]

@[simp] theorem countBanners_setStatusBody (body : List Elem) (msg : String) (e : Bool) :
    countBanners (setStatusBody body msg e) = max (countBanners body) 1 := by
  induction body with
  | nil => simp [setStatusBody, countBanners]
  | cons el tl ih =>
      cases el <;> simp [setStatusBody, countBanners, ih]

@[simp] theorem firstBanner_setStatusBody (body : List Elem) (msg : String) (e : Bool) :
    firstBanner (setStatusBody body msg e) = some (msg, bannerBgAfter body e) := by
  induction body with
  | nil => simp [setStatusBody, firstBanner, bannerBgAfter]
  | cons el tl ih => cases el <;> simp [setStatusBody, firstBanner, bannerBgAfter, ih]

@[simp] theorem firstBanner_append_toast (l : List Elem) (t bg : String) :
    firstBanner (l ++ [Elem.toast t bg]) = firstBanner l := by
  induction l with
  | nil => rfl
  | cons e tl ih => cases e <;> simp [firstBanner, ih]

@[simp] theorem toastTimers_append (l1 l2 : List Timer) :
    toastTimers (l1 ++ l2) = toastTimers l1 ++ toastTimers l2 := by
  induction l1 with
  | nil => rfl
  | cons t tl ih => cases t <;> simp [toastTimers, ih]

theorem truthy_of_getProp (d : JsonVal) (k : String) (v : JsonVal)
    (h : getProp d k = some v) : truthy d = true := by
  cases d <;> first | rfl | simp [getProp] at h

theorem isNull_of_getProp (m : JsonVal) (k : String) (v : JsonVal)
    (h : getProp m k = some v) : isNull m = false := by
  cases m <;> first | rfl | simp [getProp] at h

@[simp] theorem truthyOpt_some (v : JsonVal) : truthyOpt (some v) = truthy v := rfl

@[simp] theorem jsStrictEqStr_some_str (s t : String) :
    jsStrictEqStr (some (.str s)) t = (s == t) := rfl

@[simp] theorem toastColors_danger : toastColors "danger" = some "#dc2626" := rfl

@[simp] theorem toastColors_warning : toastColors "warning" = some "#fbbf24" := rfl

theorem truthyOpt_isSome (o : Option JsonVal) (h : truthyOpt o = true) :
    o.isSome = true := by
  cases o <;> simp_all [truthyOpt]

theorem getProp_none_of_not_truthy (v : JsonVal) (k : String) (h : truthy v = false) :
    getProp v k = none := by
  cases v <;> simp_all [truthy, getProp]

theorem eq_null_of_isNull (m : JsonVal) (h : isNull m = true) : m = JsonVal.null := by
  cases m <;> simp_all [isNull]

theorem jsStrictEqStr_iff (o : Option JsonVal) (s : String) :
    jsStrictEqStr o s = true ↔ o = some (JsonVal.str s) := by
  cases o with
  | none => simp [jsStrictEqStr]
  | some v => cases v <;> simp [jsStrictEqStr]

theorem qualifyingB_false_of_not_truthy_data (m : JsonVal)
    (hD : truthyOpt (getProp m "data") = false) : qualifyingB m = false := by
  rcases ho : getProp m "data" with _ | v
  · simp [qualifyingB, ho]
  · have hv : truthy v = false := by simpa [truthyOpt, ho] using hD
    simp [qualifyingB, ho, getProp_none_of_not_truthy v _ hv, jsStrictEqStr]

theorem dashboardOnMessage_spec (doc : Doc) (m : JsonVal) :
    (dashboardOnMessage doc m).doc.body
        = doc.body ++ (if doc.alertsArea.isSome && qualifyingB m then toastElemsFor m else [])
      ∧ (dashboardOnMessage doc m).doc.timers
        = doc.timers ++ (if doc.alertsArea.isSome && qualifyingB m then [Timer.toastRemove 5500] else [])
      ∧ (dashboardOnMessage doc m).doc.liveData = doc.liveData.map (fun _ => jsonStringify2 m)
      ∧ (dashboardOnMessage doc m).doc.alertsArea
        = (if doc.alertsArea.isSome && jsStrictEqStr (getProp m "type") "instant_threat"
              && truthyOpt (getProp m "data")
           then some (jsonStringify2 ((getProp m "data").getD JsonVal.null))
           else doc.alertsArea) := by
  by_cases hA : doc.alertsArea.isSome
  · obtain ⟨a, ha⟩ := Option.isSome_iff_exists.mp hA
    by_cases hN : isNull m
    · have hm := eq_null_of_isNull m hN
      subst hm
      simp [dashboardOnMessage, qualifyingB, getProp, jsStrictEqStr, isNull, ha]
    · by_cases hT : jsStrictEqStr (getProp m "type") "instant_threat" = true
      · by_cases hD : truthyOpt (getProp m "data") = true
        · by_cases hC : jsStrictEqStr (getProp ((getProp m "data").getD JsonVal.null) "threat_level") "CRITICAL" = true
          · have hq : qualifyingB m = true := by
              simp [qualifyingB, hT, hC, truthyOpt_isSome _ hD]
            simp [dashboardOnMessage, ha, hN, hT, hD, hC, hq, toastElemsFor, toastFor]
          · by_cases hH : jsStrictEqStr (getProp ((getProp m "data").getD JsonVal.null) "threat_level") "HIGH" = true
            · have hq : qualifyingB m = true := by
                simp [qualifyingB, hT, hH, truthyOpt_isSome _ hD]
              simp [dashboardOnMessage, ha, hN, hT, hD, hC, hH, hq, toastElemsFor, toastFor]
            · have hq : qualifyingB m = false := by
                simp [qualifyingB, hC, hH]
              simp [dashboardOnMessage, ha, hN, hT, hD, hC, hH, hq]
        · have hq := qualifyingB_false_of_not_truthy_data m (by simpa using hD)
          simp [dashboardOnMessage, ha, hN, hT, hD, hq]
      · have hq : qualifyingB m = false := by simp [qualifyingB, hT]
        simp [dashboardOnMessage, ha, hN, hT, hq]
  · have ha : doc.alertsArea = none := Option.not_isSome_iff_eq_none.mp hA
    simp [dashboardOnMessage, ha]

theorem liveMonitoringOnMessage_spec (doc : Doc) (m : JsonVal) :
    (liveMonitoringOnMessage doc m).doc.body
        = doc.body ++ (if qualifyingB m then toastElemsFor m else [])
      ∧ (liveMonitoringOnMessage doc m).doc.timers
        = doc.timers ++ (if qualifyingB m then [Timer.toastRemove 5500] else [])
      ∧ (liveMonitoringOnMessage doc m).doc.alertsArea
        = doc.alertsArea.map (fun _ => jsonStringify2 m)
      ∧ (liveMonitoringOnMessage doc m).doc.liveData = doc.liveData := by
  by_cases hN : isNull m
  · have hm := eq_null_of_isNull m hN
    subst hm
    simp [liveMonitoringOnMessage, qualifyingB, getProp, jsStrictEqStr, isNull]
  · by_cases hT : jsStrictEqStr (getProp m "type") "instant_threat" = true
    · by_cases hD : truthyOpt (getProp m "data") = true
      · by_cases hC : jsStrictEqStr (getProp ((getProp m "data").getD JsonVal.null) "threat_level") "CRITICAL" = true
        · have hL : truthyOpt (getProp ((getProp m "data").getD JsonVal.null) "threat_level") = true := by
            rw [(jsStrictEqStr_iff _ _).mp hC]; rfl
          have hq : qualifyingB m = true := by
            simp [qualifyingB, hT, hC, truthyOpt_isSome _ hD]
          simp [liveMonitoringOnMessage, hN, hT, hD, hC, hL, hq, toastElemsFor, toastFor]
        · by_cases hH : jsStrictEqStr (getProp ((getProp m "data").getD JsonVal.null) "threat_level") "HIGH" = true
          · have hL : truthyOpt (getProp ((getProp m "data").getD JsonVal.null) "threat_level") = true := by
              rw [(jsStrictEqStr_iff _ _).mp hH]; rfl
            have hq : qualifyingB m = true := by
              simp [qualifyingB, hT, hH, truthyOpt_isSome _ hD]
            simp [liveMonitoringOnMessage, hN, hT, hD, hC, hH, hL, hq, toastElemsFor, toastFor]
          · have hq : qualifyingB m = false := by
              simp [qualifyingB, hC, hH]
            by_cases hL : truthyOpt (getProp ((getProp m "data").getD JsonVal.null) "threat_level") = true
            · simp [liveMonitoringOnMessage, hN, hT, hD, hC, hH, hL, hq]
            · simp [liveMonitoringOnMessage, hN, hT, hD, hL, hq]
      · have hq := qualifyingB_false_of_not_truthy_data m (by simpa using hD)
        simp [liveMonitoringOnMessage, hN, hT, hD, hq]
    · have hq : qualifyingB m = false := by simp [qualifyingB, hT]
      simp [liveMonitoringOnMessage, hN, hT, hq]

@[simp] theorem toastList_map_toast (l : List (String × String)) :
    toastList (l.map fun p => Elem.toast p.1 p.2) = l := by
  induction l with
  | nil => rfl
  | cons p tl ih => simp [toastList, ih]

@[simp] theorem countBanners_append (l1 l2 : List Elem) :
    countBanners (l1 ++ l2) = countBanners l1 + countBanners l2 := by
  induction l1 with
  | nil => simp [countBanners]
  | cons e tl ih =>
      cases e with
      | banner t b => simp [countBanners, ih]; omega
      | toast t b => simp [countBanners, ih]

@[simp] theorem countBanners_map_toast (l : List (String × String)) :
    countBanners (l.map fun p => Elem.toast p.1 p.2) = 0 := by
  induction l with
  | nil => rfl
  | cons p tl ih => simp [countBanners, ih]

theorem qualifyingB_of_props (m d : JsonVal)
    (ht : getProp m "type" = some (JsonVal.str "instant_threat"))
    (hd : getProp m "data" = some d)
    (hl : getProp d "threat_level" = some (JsonVal.str "CRITICAL")
        ∨ getProp d "threat_level" = some (JsonVal.str "HIGH")) :
    qualifyingB m = true := by
  rcases hl with h | h <;> simp [qualifyingB, ht, hd, h]

theorem toastFor_of_critical (m d : JsonVal) (hd : getProp m "data" = some d)
    (h : getProp d "threat_level" = some (JsonVal.str "CRITICAL")) :
    toastFor m = [("CRITICAL THREAT: " ++ jsDisplay (getProp d "location"), "#dc2626")] := by
  simp [toastFor, hd, h]

theorem toastFor_of_high (m d : JsonVal) (hd : getProp m "data" = some d)
    (h : getProp d "threat_level" = some (JsonVal.str "HIGH")) :
    toastFor m = [("HIGH THREAT: " ++ jsDisplay (getProp d "location"), "#fbbf24")] := by
  simp [toastFor, hd, h]

theorem toastFor_length (m : JsonVal) (hq : qualifyingB m = true) :
    (toastFor m).length = 1 := by
  simp only [qualifyingB, Bool.and_eq_true, Bool.or_eq_true] at hq
  rcases hq with ⟨-, hC | hH⟩
  · simp [toastFor, hC]
  · by_cases hC : jsStrictEqStr (getProp ((getProp m "data").getD JsonVal.null) "threat_level") "CRITICAL" = true
    · simp [toastFor, hC]
    · simp [toastFor, hC, hH]

theorem dashboardSeq_toasts (ms : List JsonVal) : ∀ (doc : Doc),
    (∀ m ∈ ms, qualifyingB m = true) → doc.alertsArea.isSome = true →
    (toastList (processDashboardSeq doc ms).body).length
        = (toastList doc.body).length + ms.length
      ∧ toastTimers (processDashboardSeq doc ms).timers
        = toastTimers doc.timers ++ List.replicate ms.length 5500 := by
  induction ms with
  | nil =>
      intro doc _ _
      simp [processDashboardSeq]
  | cons m tl ih =>
      intro doc hq hA
      have hm : qualifyingB m = true := hq m (List.mem_cons_self m tl)
      have hstep := dashboardOnMessage_spec doc m
      have hA' : (dashboardOnMessage doc m).doc.alertsArea.isSome = true := by
        rw [hstep.2.2.2]
        split
        · rfl
        · exact hA
      have hrec := ih (dashboardOnMessage doc m).doc
        (fun m' hm' => hq m' (List.mem_cons_of_mem m hm')) hA'
      have hseq : processDashboardSeq doc (m :: tl)
          = processDashboardSeq (dashboardOnMessage doc m).doc tl := rfl
      rw [hseq]
      constructor
      · rw [hrec.1, hstep.1]
        simp [hA, hm, toastElemsFor, toastFor_length m hm]
        omega
      · rw [hrec.2, hstep.2.1]
        simp [hA, hm, toastTimers, List.replicate_succ, List.append_assoc]

theorem liveMonitoringSeq_toasts (ms : List JsonVal) : ∀ (doc : Doc),
    (∀ m ∈ ms, qualifyingB m = true) →
    (toastList (processLiveMonitoringSeq doc ms).body).length
        = (toastList doc.body).length + ms.length
      ∧ toastTimers (processLiveMonitoringSeq doc ms).timers
        = toastTimers doc.timers ++ List.replicate ms.length 5500 := by
  induction ms with
  | nil =>
      intro doc _
      simp [processLiveMonitoringSeq]
  | cons m tl ih =>
      intro doc hq
      have hm : qualifyingB m = true := hq m (List.mem_cons_self m tl)
      have hstep := liveMonitoringOnMessage_spec doc m
      have hrec := ih (liveMonitoringOnMessage doc m).doc
        (fun m' hm' => hq m' (List.mem_cons_of_mem m hm'))
      have hseq : processLiveMonitoringSeq doc (m :: tl)
          = processLiveMonitoringSeq (liveMonitoringOnMessage doc m).doc tl := rfl
      rw [hseq]
      constructor
      · rw [hrec.1, hstep.1]
        simp [hm, toastElemsFor, toastFor_length m hm]
        omega
      · rw [hrec.2, hstep.2.1]
        simp [hm, toastTimers, List.replicate_succ, List.append_assoc]

/-- C2: after processing any decoded inbound message M, the passive mirror
(`live-data` in dashboard.js, `alerts-area` in live_monitoring.js) holds
exactly the pretty-printed JSON serialization of the entire decoded message,
overwriting any prior content; this holds unconditionally over messages,
including ones that do not qualify as threats (the `Option.map` form states
that a present surface is always overwritten and an absent one stays
absent). -/
theorem c2_passive_mirror_holds_serialized_message (doc : Doc) (m : JsonVal) :
    (dashboardOnMessage doc m).doc.liveData = doc.liveData.map (fun _ => jsonStringify2 m)
      ∧ (liveMonitoringOnMessage doc m).doc.alertsArea
        = doc.alertsArea.map (fun _ => jsonStringify2 m) :=
  ⟨(dashboardOnMessage_spec doc m).2.2.1, (liveMonitoringOnMessage_spec doc m).2.2.1⟩

/-- C5: for every inbound frame whose payload is not valid JSON (the
`JSON.parse` result is `none`), both message handlers raise the parse
exception unhandled at the decode step with no parsing-failure-specific
handling, so the document — in particular the passive mirror — is unchanged
and no toast is produced for that frame. -/
theorem c5_invalid_json_unhandled (doc : Doc) :
    dashboardOnFrame doc none = ⟨doc, true⟩
      ∧ liveMonitoringOnFrame doc none = ⟨doc, true⟩
      ∧ (dashboardOnFrame doc none).doc.liveData = doc.liveData
      ∧ (liveMonitoringOnFrame doc none).doc.alertsArea = doc.alertsArea
      ∧ toastList (dashboardOnFrame doc none).doc.body = toastList doc.body
      ∧ toastList (liveMonitoringOnFrame doc none).doc.body = toastList doc.body :=
  ⟨rfl, rfl, rfl, rfl, rfl, rfl⟩

/-- C7 counterexample: on a page served over a secure scheme the claimed URL
would be `wss://example.com/ws`, but both clients build `ws://example.com/ws`
— the hardcoded scheme does not mirror the transport security of the page. -/
theorem c7_counterexample_secure_page :
    wsUrl "example.com" = "ws://example.com/ws"
      ∧ wsUrl "example.com" ≠ specWsUrl true "example.com" := by
  exact ⟨rfl, by decide⟩

/-- C7 (amended): the single streaming connection both clients open at
startup targets the URL formed from the current host with path `/ws`, but
its scheme is always `ws`: for every host the built URL coincides with the
spec URL of an insecure page and differs from the spec URL of a secure
page. -/
theorem c7_ws_url_hardcoded_scheme (host : String) :
    wsUrl host = specWsUrl false host ∧ wsUrl host ≠ specWsUrl true host := by
  constructor
  · rfl
  · intro h
    have hlen := congrArg String.length h
    have h1 : ("ws://" : String).length = 5 := rfl
    have h2 : ("wss://" : String).length = 6 := rfl
    simp [wsUrl, specWsUrl, String.length_append, h1, h2] at hlen

/-- C4 counterexample: when the close event arrives while the info-styled
banner from `onopen` is still on screen, `setStatus` reuses that element and
only replaces its text, so the disconnect banner keeps the blue `#2776ea`
background instead of being error-styled `#c92a2a`. -/
theorem c4_counterexample_banner_not_error_styled :
    firstBanner (dashboardOnClose docOpenBanner).body
        = some ("WebSocket disconnected", "#2776ea")
      ∧ firstBanner (dashboardOnClose docOpenBanner).body
        ≠ some ("WebSocket disconnected", "#c92a2a") := by
  exact ⟨by decide, by decide⟩

/-- C4 (amended): on a close event every passive display surface that is
present is overwritten with exactly the literal string
`WebSocket disconnected` (an absent surface stays absent), and the status
text of the banner becomes `WebSocket disconnected`; the banner is error-styled
(`#c92a2a`) when no banner element existed at that moment, while a
pre-existing banner keeps its previous background (`bannerBgAfter`). -/
theorem c4_close_overwrites_surfaces (doc : Doc) :
    (dashboardOnClose doc).liveData = doc.liveData.map (fun _ => "WebSocket disconnected")
      ∧ (dashboardOnClose doc).alertsArea = doc.alertsArea.map (fun _ => "WebSocket disconnected")
      ∧ (liveMonitoringOnClose doc).alertsArea
        = doc.alertsArea.map (fun _ => "WebSocket disconnected")
      ∧ (liveMonitoringOnClose doc).liveData = doc.liveData
      ∧ firstBanner (dashboardOnClose doc).body
        = some ("WebSocket disconnected", bannerBgAfter doc.body true)
      ∧ firstBanner (liveMonitoringOnClose doc).body
        = some ("WebSocket disconnected", bannerBgAfter doc.body true) := by
  refine ⟨?_, ?_, ?_, ?_, ?_, ?_⟩ <;> simp [dashboardOnClose, liveMonitoringOnClose]

/-- C6 counterexample: when the error event arrives while the info-styled
banner from `onopen` is still on screen, `setStatus` reuses that element and
only replaces its text, so the error banner keeps the blue `#2776ea`
background instead of being error-styled `#c92a2a`. -/
theorem c6_counterexample_error_banner_not_error_styled :
    firstBanner (wsOnError docOpenBannerLM).body
        = some ("WebSocket error occurred", "#2776ea")
      ∧ firstBanner (wsOnError docOpenBannerLM).body
        ≠ some ("WebSocket error occurred", "#c92a2a") := by
  exact ⟨by decide, by decide⟩

/-- C6 (amended): on an error event (not followed by a close) the passive
display surfaces are left entirely unchanged and no toast is produced; the
text of the status banner becomes `WebSocket error occurred`, error-styled
(`#c92a2a`) when no banner element existed at that moment, while a
pre-existing banner keeps its previous background (`bannerBgAfter`). -/
theorem c6_error_leaves_mirror_unchanged (doc : Doc) :
    (wsOnError doc).liveData = doc.liveData
      ∧ (wsOnError doc).alertsArea = doc.alertsArea
      ∧ toastList (wsOnError doc).body = toastList doc.body
      ∧ firstBanner (wsOnError doc).body
        = some ("WebSocket error occurred", bannerBgAfter doc.body true) := by
  refine ⟨rfl, rfl, ?_, ?_⟩ <;> simp [wsOnError]

/-- C9: every `setStatus` call (the open, error, and close handlers all go
through it) keeps the `ws-status` banner a singleton — a body with at most
one banner still has at most one afterwards (`max · 1`), and a fresh banner
is created exactly when none exists — writes its text into the fixed slot
(last write wins), and schedules a banner removal after the fixed dwell time
of 3500 ms; message processing never touches the banner count. -/
theorem c9_status_banner_singleton (doc : Doc) (msg : String) (isError : Bool) (m : JsonVal) :
    countBanners (setStatus msg isError doc).body = max (countBanners doc.body) 1
      ∧ firstBanner (setStatus msg isError doc).body
        = some (msg, bannerBgAfter doc.body isError)
      ∧ (setStatus msg isError doc).timers = doc.timers ++ [Timer.bannerRemove 3500]
      ∧ countBanners (dashboardOnOpen doc).body = max (countBanners doc.body) 1
      ∧ countBanners (liveMonitoringOnOpen doc).body = max (countBanners doc.body) 1
      ∧ countBanners (wsOnError doc).body = max (countBanners doc.body) 1
      ∧ countBanners (dashboardOnClose doc).body = max (countBanners doc.body) 1
      ∧ countBanners (liveMonitoringOnClose doc).body = max (countBanners doc.body) 1
      ∧ countBanners (dashboardOnMessage doc m).doc.body = countBanners doc.body
      ∧ countBanners (liveMonitoringOnMessage doc m).doc.body = countBanners doc.body := by
  refine ⟨?_, ?_, rfl, ?_, ?_, ?_, ?_, ?_, ?_, ?_⟩ <;>
    simp [dashboardOnOpen, liveMonitoringOnOpen, wsOnError, dashboardOnClose,
      liveMonitoringOnClose, (dashboardOnMessage_spec doc m).1,
      (liveMonitoringOnMessage_spec doc m).1, toastElemsFor] <;>
    (try (split <;> simp [countBanners]))

/-- C1: for every decoded inbound message with `type` equal to
`instant_threat`, `data` present, and `data.threat_level` equal to
`CRITICAL`, processing the message emits exactly one toast with text
`CRITICAL THREAT: {location}` and the danger color `#dc2626`; with
`threat_level` equal to `HIGH`, exactly one toast with text
`HIGH THREAT: {location}` and the warning color `#fbbf24`.  The CRITICAL
comparison is made first and the if/else chain fires at most one branch per
message.  In live_monitoring.js this holds unconditionally; in dashboard.js
it holds whenever the `alerts-area` surface is present (see C10 for the
absent case). -/
theorem c1_instant_threat_toast (doc : Doc) (m d : JsonVal)
    (ht : getProp m "type" = some (JsonVal.str "instant_threat"))
    (hd : getProp m "data" = some d) :
    (getProp d "threat_level" = some (JsonVal.str "CRITICAL") →
      (doc.alertsArea.isSome = true →
        toastList (dashboardOnMessage doc m).doc.body
          = toastList doc.body
              ++ [("CRITICAL THREAT: " ++ jsDisplay (getProp d "location"), "#dc2626")])
      ∧ toastList (liveMonitoringOnMessage doc m).doc.body
          = toastList doc.body
              ++ [("CRITICAL THREAT: " ++ jsDisplay (getProp d "location"), "#dc2626")])
    ∧ (getProp d "threat_level" = some (JsonVal.str "HIGH") →
      (doc.alertsArea.isSome = true →
        toastList (dashboardOnMessage doc m).doc.body
          = toastList doc.body
              ++ [("HIGH THREAT: " ++ jsDisplay (getProp d "location"), "#fbbf24")])
      ∧ toastList (liveMonitoringOnMessage doc m).doc.body
          = toastList doc.body
              ++ [("HIGH THREAT: " ++ jsDisplay (getProp d "location"), "#fbbf24")]) := by
  constructor
  · intro hl
    have hq := qualifyingB_of_props m d ht hd (Or.inl hl)
    have htf := toastFor_of_critical m d hd hl
    constructor
    · intro hA
      simp [(dashboardOnMessage_spec doc m).1, hA, hq, toastElemsFor, htf, toastList]
    · simp [(liveMonitoringOnMessage_spec doc m).1, hq, toastElemsFor, htf, toastList]
  · intro hl
    have hq := qualifyingB_of_props m d ht hd (Or.inr hl)
    have htf := toastFor_of_high m d hd hl
    constructor
    · intro hA
      simp [(dashboardOnMessage_spec doc m).1, hA, hq, toastElemsFor, htf, toastList]
    · simp [(liveMonitoringOnMessage_spec doc m).1, hq, toastElemsFor, htf, toastList]

/-- C1 witness: the CRITICAL Chennai message on a page with both surfaces
produces exactly one danger toast `CRITICAL THREAT: Chennai` in each
client. -/
theorem c1_witness_chennai :
    getProp msgCritical "type" = some (JsonVal.str "instant_threat")
      ∧ getProp msgCritical "data" = some dCritical
      ∧ getProp dCritical "threat_level" = some (JsonVal.str "CRITICAL")
      ∧ docBoth.alertsArea.isSome = true
      ∧ toastList (dashboardOnMessage docBoth msgCritical).doc.body
        = toastList docBoth.body ++ [("CRITICAL THREAT: Chennai", "#dc2626")]
      ∧ toastList (liveMonitoringOnMessage docBoth msgCritical).doc.body
        = toastList docBoth.body ++ [("CRITICAL THREAT: Chennai", "#dc2626")] := by
  have h := (c1_instant_threat_toast docBoth msgCritical dCritical rfl rfl).1 rfl
  exact ⟨rfl, rfl, rfl, rfl, h.1 rfl, h.2⟩

/-- C3 counterexample: for the instant_threat message with threat_level LOW
(which the claim covers: a value other than CRITICAL or HIGH), dashboard.js
does more than update the passive mirror — it also overwrites the
`alerts-area` surface with the serialization of `data.data`, so the passive
mirror update is not the only observable effect. -/
theorem c3_counterexample_low_writes_alerts_area :
    qualifyingB msgLow = false
      ∧ (dashboardOnMessage docBoth msgLow).doc.alertsArea ≠ docBoth.alertsArea
      ∧ (dashboardOnMessage docBoth msgLow).doc.alertsArea = some (jsonStringify2 dLow) := by
  exact ⟨rfl, by decide, by decide⟩

/-- C3 (amended): for every decoded message that does not qualify (type not
`instant_threat`, or `data` absent, or `threat_level` absent or any value
other than exactly CRITICAL or HIGH), zero toasts are produced, no timer is
scheduled and the status banner is untouched in both clients; the passive
mirror is updated as always, and the only other possible effect is in
dashboard.js: when the message has type `instant_threat` with truthy `data`
and the `alerts-area` element is present, that surface is additionally
overwritten with the pretty-printed serialization of `data.data`. -/
theorem c3_non_escalating_zero_toasts (doc : Doc) (m : JsonVal)
    (hq : qualifyingB m = false) :
    toastList (dashboardOnMessage doc m).doc.body = toastList doc.body
      ∧ toastList (liveMonitoringOnMessage doc m).doc.body = toastList doc.body
      ∧ firstBanner (dashboardOnMessage doc m).doc.body = firstBanner doc.body
      ∧ firstBanner (liveMonitoringOnMessage doc m).doc.body = firstBanner doc.body
      ∧ (dashboardOnMessage doc m).doc.timers = doc.timers
      ∧ (liveMonitoringOnMessage doc m).doc.timers = doc.timers
      ∧ (dashboardOnMessage doc m).doc.liveData = doc.liveData.map (fun _ => jsonStringify2 m)
      ∧ (liveMonitoringOnMessage doc m).doc.alertsArea
        = doc.alertsArea.map (fun _ => jsonStringify2 m)
      ∧ (liveMonitoringOnMessage doc m).doc.liveData = doc.liveData
      ∧ (dashboardOnMessage doc m).doc.alertsArea
        = (if doc.alertsArea.isSome && jsStrictEqStr (getProp m "type") "instant_threat"
              && truthyOpt (getProp m "data")
           then some (jsonStringify2 ((getProp m "data").getD JsonVal.null))
           else doc.alertsArea) := by
  refine ⟨?_, ?_, ?_, ?_, ?_, ?_,
    (dashboardOnMessage_spec doc m).2.2.1, (liveMonitoringOnMessage_spec doc m).2.2.1,
    (liveMonitoringOnMessage_spec doc m).2.2.2, (dashboardOnMessage_spec doc m).2.2.2⟩ <;>
    simp [(dashboardOnMessage_spec doc m).1, (liveMonitoringOnMessage_spec doc m).1,
      (dashboardOnMessage_spec doc m).2.1, (liveMonitoringOnMessage_spec doc m).2.1, hq]

/-- C3 witness: a generic `sensor_update` message on a page with both
surfaces produces zero toasts in both clients and leaves timers and the
banner untouched. -/
theorem c3_witness_generic_update :
    qualifyingB msgUpdate = false
      ∧ toastList (dashboardOnMessage docBoth msgUpdate).doc.body = toastList docBoth.body
      ∧ toastList (liveMonitoringOnMessage docBoth msgUpdate).doc.body = toastList docBoth.body
      ∧ (dashboardOnMessage docBoth msgUpdate).doc.timers = docBoth.timers := by
  have h := c3_non_escalating_zero_toasts docBoth msgUpdate rfl
  exact ⟨rfl, h.1, h.2.1, h.2.2.2.2.1⟩

/-- C10: toast emission in dashboard.js additionally depends on the presence
of the `alerts-area` display surface — for a qualifying CRITICAL or HIGH
message no toast is produced when that element is absent — whereas in
live_monitoring.js the same message always produces exactly one toast,
independently of any display surface. -/
theorem c10_dashboard_requires_alerts_area (doc : Doc) (m d : JsonVal)
    (ht : getProp m "type" = some (JsonVal.str "instant_threat"))
    (hd : getProp m "data" = some d)
    (hl : getProp d "threat_level" = some (JsonVal.str "CRITICAL")
        ∨ getProp d "threat_level" = some (JsonVal.str "HIGH")) :
    (doc.alertsArea = none →
      toastList (dashboardOnMessage doc m).doc.body = toastList doc.body)
      ∧ (toastList (liveMonitoringOnMessage doc m).doc.body).length
        = (toastList doc.body).length + 1 := by
  have hq := qualifyingB_of_props m d ht hd hl
  constructor
  · intro hA
    simp [(dashboardOnMessage_spec doc m).1, hA]
  · simp [(liveMonitoringOnMessage_spec doc m).1, hq, toastElemsFor,
      toastFor_length m hq]

/-- C10 witness: the HIGH Goa message on a page without an `alerts-area`
element produces no dashboard toast but still exactly one live-monitoring
toast. -/
theorem c10_witness_goa :
    docNoAlerts.alertsArea = none
      ∧ toastList (dashboardOnMessage docNoAlerts msgHigh).doc.body
        = toastList docNoAlerts.body
      ∧ (toastList (liveMonitoringOnMessage docNoAlerts msgHigh).doc.body).length
        = (toastList docNoAlerts.body).length + 1 := by
  have h := c10_dashboard_requires_alerts_area docNoAlerts msgHigh dHigh rfl rfl (Or.inr rfl)
  exact ⟨rfl, h.1 rfl, h.2⟩

/-- C8: processing a sequence of N messages each qualifying with
threat_level CRITICAL or HIGH produces exactly N toasts — none suppressed,
deduplicated or merged, even when the messages are identical — and each
toast independently schedules its removal after the fixed dwell time of
5500 ms.  In live_monitoring.js this holds unconditionally; in dashboard.js
it holds whenever the `alerts-area` surface is present (see C10 for the
absent case). -/
theorem c8_n_messages_n_toasts (doc : Doc) (ms : List JsonVal)
    (hq : ∀ m ∈ ms, qualifyingB m = true) :
    (doc.alertsArea.isSome = true →
      (toastList (processDashboardSeq doc ms).body).length
          = (toastList doc.body).length + ms.length
        ∧ toastTimers (processDashboardSeq doc ms).timers
          = toastTimers doc.timers ++ List.replicate ms.length 5500)
      ∧ ((toastList (processLiveMonitoringSeq doc ms).body).length
          = (toastList doc.body).length + ms.length
        ∧ toastTimers (processLiveMonitoringSeq doc ms).timers
          = toastTimers doc.timers ++ List.replicate ms.length 5500) :=
  ⟨fun hA => dashboardSeq_toasts ms doc hq hA, liveMonitoringSeq_toasts ms doc hq⟩

/-- C8 witness: two identical qualifying HIGH messages on a page with both
surfaces produce exactly two toasts and two independent 5500 ms removal
timers in each client. -/
theorem c8_witness_two_identical :
    qualifyingB msgHigh = true
      ∧ docBoth.alertsArea.isSome = true
      ∧ (toastList (processDashboardSeq docBoth [msgHigh, msgHigh]).body).length
        = (toastList docBoth.body).length + 2
      ∧ toastTimers (processDashboardSeq docBoth [msgHigh, msgHigh]).timers
        = toastTimers docBoth.timers ++ List.replicate 2 5500
      ∧ (toastList (processLiveMonitoringSeq docBoth [msgHigh, msgHigh]).body).length
        = (toastList docBoth.body).length + 2
      ∧ toastTimers (processLiveMonitoringSeq docBoth [msgHigh, msgHigh]).timers
        = toastTimers docBoth.timers ++ List.replicate 2 5500 := by
  have hall : ∀ m ∈ [msgHigh, msgHigh], qualifyingB m = true := by
    intro m hm
    rcases List.mem_cons.mp hm with h | h
    · subst h; rfl
    · rcases List.mem_cons.mp h with h2 | h2
      · subst h2; rfl
      · exact absurd h2 (List.not_mem_nil m)
  have h := c8_n_messages_n_toasts docBoth [msgHigh, msgHigh] hall
  exact ⟨rfl, rfl, (h.1 rfl).1, (h.1 rfl).2, h.2.1, h.2.2⟩

end Coastal
